import Mathlib

/-!
Shallow embedding of the playback-control command handlers of
`mopidy_mpd/protocol/playback.py`.

Each command handler is modelled as a pure function from an environment
(the values the external playback/tracklist/mixer actors would report
during the command) to a `CmdOut`: the ordered trace of actor calls the
handler issues plus the error it raises, if any.  The environment is
read-only within one command, matching the request/response execution
model (one command at a time, actors queried fresh).
-/

/-- Playback state reported by the playback actor (`PlaybackState` in
mopidy core): one of stopped, playing, paused. -/
inductive PBState
  | stopped
  | playing
  | paused
deriving DecidableEq, Repr

/-- Tracklist entry as seen by this code: a track with its stable
tracklist id (`tlid`).  Track content is irrelevant to the handlers. -/
structure TlTrack where
  tlid : Int
deriving DecidableEq, Repr

/-- Environment of one command: everything the external actors would
answer if queried during the command. -/
structure Env where
  /-- Playback state answered by `playback.get_state()`. -/
  state : PBState
  /-- Current track answered by `playback.get_current_tl_track()`;
  `playback.get_current_tlid()` is its `tlid`. -/
  current : Option TlTrack
  /-- Tracklist contents backing `tracklist.slice` and `tracklist.filter`. -/
  tracklist : List TlTrack
  /-- Elapsed milliseconds answered by `playback.get_time_position()`. -/
  timePosition : Int
  /-- Volume answered by `mixer.get_volume()` (`None` when unreadable). -/
  mixerVolume : Option Int
  /-- Success flag answered by `mixer.set_volume(...)`. -/
  setVolumeSuccess : Bool
deriving DecidableEq, Repr

/-- Actor calls a handler can issue, queries included. -/
inductive Call
  | getState
  | getCurrentTlid
  | getCurrentTlTrack
  | getTimePosition
  | tracklistSlice (start stop : Int)
  | tracklistFilterTlid (tlid : Int)
  | tracklistIndex
  | playbackPlay (tlid : Option Int)
  | playbackResume
  | playbackPause
  | playbackSeek (ms : Int)
  | mixerGetVolume
  | mixerSetVolume (v : Int)
deriving DecidableEq, Repr

/-- Errors raised by the handlers (`mopidy_mpd.exceptions`). -/
inductive Err
  | argError (msg : String)
  | noExistError (msg : String)
  | systemError (msg : String)
  | notImplemented
deriving DecidableEq, Repr

/-- Outcome of one command: the ordered actor-call trace and the error
raised, if any. -/
structure CmdOut where
  calls : List Call
  err : Option Err
deriving DecidableEq, Repr

/-- Does this call change actor state (as opposed to a read-only query)? -/
def Call.isAction : Call → Bool
  | .playbackPlay _ => true
  | .playbackResume => true
  | .playbackPause => true
  | .playbackSeek _ => true
  | .mixerSetVolume _ => true
  | _ => false

/-- State-changing calls of a trace, in order. -/
def actionCalls (l : List Call) : List Call :=
  l.filter Call.isAction

/-- Millisecond arguments of the `playback.seek` calls of a trace. -/
def seekValues (l : List Call) : List Int :=
  l.filterMap fun c => match c with
    | .playbackSeek ms => some ms
    | _ => none

/-- Volume arguments of the `mixer.set_volume` calls of a trace. -/
def setVolumeValues (l : List Call) : List Int :=
  l.filterMap fun c => match c with
    | .mixerSetVolume v => some v
    | _ => none

/-- Python `int()` applied to an exact rational: truncation toward zero. -/
def pyInt (q : ℚ) : Int :=
  if 0 ≤ q then ⌊q⌋ else ⌈q⌉

/-- Modelled from the spec: the external Tracklist Actor operation
`sliceByPosition` (`tracklist.slice(start, stop)` is not under `src/`).
Returns the entries whose zero-based position lies in the half-open
range `[start, stop)`; since positions are non-negative this is the
sublist from position `max start 0` of length `stop - max start 0`. -/
def Env.slice (e : Env) (start stop : Int) : List TlTrack :=
  (e.tracklist.drop (max start 0).toNat).take (stop - max start 0).toNat

/-- Modelled from the spec: the external Tracklist Actor operation
`filterById` (`tracklist.filter({"tlid": [tlid]})` is not under `src/`).
Returns the entries whose `tlid` equals the given id. -/
def Env.filterTlid (e : Env) (tlid : Int) : List TlTrack :=
  e.tracklist.filter fun t => t.tlid == tlid

/-- Modelled from the spec: the external Tracklist Actor operation
`indexOf` (`tracklist.index(tl_track)` is not under `src/`).  Position of
the given track in the tracklist, or `none` when no track is given or it
is absent. -/
def Env.index (e : Env) (t : Option TlTrack) : Option Nat :=
  match t with
  | none => none
  | some tr => e.tracklist.findIdx? fun x => x.tlid == tr.tlid

/-- Embedding of `_play_minus_one` (playback.py lines 196-213). -/
def playMinusOne (e : Env) : CmdOut :=
  match e.state with
  | .playing => ⟨[.getState], none⟩
  | .paused => ⟨[.getState, .playbackResume], none⟩
  | .stopped =>
    match e.current with
    | some t =>
        ⟨[.getState, .getCurrentTlid, .playbackPlay (some t.tlid)], none⟩
    | none =>
        match e.slice 0 1 with
        | [] => ⟨[.getState, .getCurrentTlid, .tracklistSlice 0 1], none⟩
        | t :: _ =>
            ⟨[.getState, .getCurrentTlid, .tracklistSlice 0 1,
              .playbackPlay (some t.tlid)], none⟩

/-- Embedding of the `play` handler (playback.py lines 156-193). -/
def play (e : Env) (songpos : Option Int) : CmdOut :=
  match songpos with
  | none => ⟨[.playbackPlay none], none⟩
  | some p =>
    if p = -1 then playMinusOne e
    else
      match e.slice p (p + 1) with
      | [] => ⟨[.tracklistSlice p (p + 1)], some (.argError "Bad song index")⟩
      | t :: _ =>
          ⟨[.tracklistSlice p (p + 1), .playbackPlay (some t.tlid)], none⟩

/-- Embedding of the `playid` handler (playback.py lines 216-241). -/
def playid (e : Env) (tlid : Int) : CmdOut :=
  if tlid = -1 then playMinusOne e
  else
    match e.filterTlid tlid with
    | [] => ⟨[.tracklistFilterTlid tlid], some (.noExistError "No such song")⟩
    | t :: _ =>
        ⟨[.tracklistFilterTlid tlid, .playbackPlay (some t.tlid)], none⟩

/-- Embedding of the `pause` handler (playback.py lines 129-153). -/
def pause (e : Env) (state : Option Bool) : CmdOut :=
  match state with
  | none =>
    match e.state with
    | .playing => ⟨[.getState, .playbackPause], none⟩
    | .paused => ⟨[.getState, .playbackResume], none⟩
    | .stopped => ⟨[.getState], none⟩
  | some true => ⟨[.playbackPause], none⟩
  | some false => ⟨[.playbackResume], none⟩

/-- Position of the current track as the integer the tracklist actor
reports to `seek` (the Python comparison `index(tl_track) != songpos`
compares this against the argument; `None` never equals an integer). -/
def currentIndexInt (e : Env) : Option Int :=
  (e.index e.current).map fun n => (n : Int)

/-- Embedding of the `seek` handler (playback.py lines 345-362).  The
within-track position is `int(seconds * 1000)`.  An error raised by the
inner `play` propagates and aborts the handler. -/
def seek (e : Env) (songpos : Int) (seconds : ℚ) : CmdOut :=
  if currentIndexInt e = some songpos then
    ⟨[.getCurrentTlTrack, .tracklistIndex,
      .playbackSeek (pyInt (seconds * 1000))], none⟩
  else
    let sub := play e (some songpos)
    match sub.err with
    | some er => ⟨[.getCurrentTlTrack, .tracklistIndex] ++ sub.calls, some er⟩
    | none =>
        ⟨[.getCurrentTlTrack, .tracklistIndex] ++ sub.calls ++
          [.playbackSeek (pyInt (seconds * 1000))], none⟩

/-- Condition of the `seekid` track switch: `not tl_track or
tl_track.tlid != tlid` — there is no current track or its id differs. -/
def seekidSwitch (e : Env) (tlid : Int) : Bool :=
  match e.current with
  | none => true
  | some t => t.tlid != tlid

/-- Embedding of the `seekid` handler (playback.py lines 365-377).  The
track switch runs when there is no current track or its id differs; an
error raised by the inner `playid` propagates and aborts the handler. -/
def seekid (e : Env) (tlid : Int) (seconds : ℚ) : CmdOut :=
  if seekidSwitch e tlid then
    let sub := playid e tlid
    match sub.err with
    | some er => ⟨.getCurrentTlTrack :: sub.calls, some er⟩
    | none =>
        ⟨.getCurrentTlTrack :: (sub.calls ++
          [.playbackSeek (pyInt (seconds * 1000))]), none⟩
  else
    ⟨[.getCurrentTlTrack, .playbackSeek (pyInt (seconds * 1000))], none⟩

/-- Parsed `TIME` argument of `seekcur`.  Modelled from the spec: the
`FLOAT`/`UFLOAT` parsers of the protocol layer are not under `src/`; the
argument carries whether the string had a `+`/`-` sign (the relative
form) and the parsed signed value in seconds. -/
structure TimeArg where
  relative : Bool
  value : ℚ
deriving DecidableEq, Repr

/-- Embedding of the `seekcur` handler (playback.py lines 380-396). -/
def seekcur (e : Env) (t : TimeArg) : CmdOut :=
  if t.relative then
    ⟨[.getTimePosition,
      .playbackSeek (e.timePosition + pyInt (t.value * 1000))], none⟩
  else
    ⟨[.playbackSeek (pyInt (t.value * 1000))], none⟩

/-- Embedding of the `setvol` handler (playback.py lines 399-416). -/
def setvol (e : Env) (volume : Int) : CmdOut :=
  let value := min (max 0 volume) 100
  if e.setVolumeSuccess then ⟨[.mixerSetVolume value], none⟩
  else ⟨[.mixerSetVolume value], some (.systemError "problems setting volume")⟩

/-- Embedding of the `volume` handler (playback.py lines 445-471). -/
def volume (e : Env) (change : Int) : CmdOut :=
  if change < -100 ∨ 100 < change then
    ⟨[], some (.argError "Invalid volume value")⟩
  else
    match e.mixerVolume with
    | none => ⟨[.mixerGetVolume], some (.systemError "problems setting volume")⟩
    | some old =>
        let newVolume := min (max 0 (old + change)) 100
        if e.setVolumeSuccess then
          ⟨[.mixerGetVolume, .mixerSetVolume newVolume], none⟩
        else
          ⟨[.mixerGetVolume, .mixerSetVolume newVolume],
            some (.systemError "problems setting volume")⟩

/-- Concrete environment: stopped, current track id 2 of a 3-track list,
time position 10000 ms, volume 80, mixer accepting. -/
def env3 : Env := ⟨.stopped, some ⟨2⟩, [⟨1⟩, ⟨2⟩, ⟨3⟩], 10000, some 80, true⟩

/-- Concrete environment: stopped with no current track and an empty
tracklist. -/
def envEmpty : Env := ⟨.stopped, none, [], 0, none, true⟩

/-- Concrete environment: playing track id 1, the only track of the
tracklist. -/
def envSeek : Env := ⟨.playing, some ⟨1⟩, [⟨1⟩], 0, some 50, true⟩

theorem seekValues_append (a b : List Call) :
    seekValues (a ++ b) = seekValues a ++ seekValues b :=
  List.filterMap_append a b _

theorem seekValues_playMinusOne (e : Env) :
    seekValues (playMinusOne e).calls = [] := by
  obtain ⟨st, cur, tl, tp, mv, vs⟩ := e
  cases st <;> cases cur <;> cases h : Env.slice ⟨.stopped, none, tl, tp, mv, vs⟩ 0 1 <;>
    simp [playMinusOne, seekValues, h]

theorem seekValues_play (e : Env) (sp : Option Int) :
    seekValues (play e sp).calls = [] := by
  cases sp with
  | none => rfl
  | some p =>
    by_cases hp : p = -1
    · simp [play, hp, seekValues_playMinusOne]
    · cases h : e.slice p (p + 1) <;> simp [play, hp, h, seekValues]

theorem seekValues_playid (e : Env) (tlid : Int) :
    seekValues (playid e tlid).calls = [] := by
  by_cases hp : tlid = -1
  · simp [playid, hp, seekValues_playMinusOne]
  · cases h : e.filterTlid tlid <;> simp [playid, hp, h, seekValues]

/-- C1: `play(-1)` and `playid(-1)` both follow the resume-or-continue
rule: if Playing, nothing beyond the state query; if Paused, exactly one
resume; if Stopped with a current track, play that track's id; if
Stopped with no current track and a non-empty tracklist, play the track
at position 0; if Stopped with no current track and an empty tracklist,
no state-changing call and no error. -/
theorem play_minus_one_resume_or_continue (e : Env) :
    play e (some (-1)) = playMinusOne e ∧
    playid e (-1) = playMinusOne e ∧
    (playMinusOne e).err = none ∧
    (e.state = .playing → actionCalls (playMinusOne e).calls = []) ∧
    (e.state = .paused →
      actionCalls (playMinusOne e).calls = [Call.playbackResume]) ∧
    (∀ t, e.state = .stopped → e.current = some t →
      actionCalls (playMinusOne e).calls = [Call.playbackPlay (some t.tlid)]) ∧
    (∀ t ts, e.state = .stopped → e.current = none → e.tracklist = t :: ts →
      actionCalls (playMinusOne e).calls = [Call.playbackPlay (some t.tlid)]) ∧
    (e.state = .stopped → e.current = none → e.tracklist = [] →
      actionCalls (playMinusOne e).calls = []) := by
  obtain ⟨st, cur, tl, tp, mv, vs⟩ := e
  refine ⟨by simp [play], by simp [playid], ?_, ?_, ?_, ?_, ?_, ?_⟩ <;>
    cases st <;> cases cur <;> cases tl <;>
      simp_all [playMinusOne, Env.slice, actionCalls, Call.isAction]

/-- Closed witness for C1 on concrete environments. -/
theorem play_minus_one_resume_or_continue_witness :
    actionCalls (playMinusOne env3).calls = [Call.playbackPlay (some 2)] ∧
    actionCalls (playMinusOne envEmpty).calls = [] := by
  constructor
  · exact (play_minus_one_resume_or_continue env3).2.2.2.2.2.1 ⟨2⟩ rfl rfl
  · exact (play_minus_one_resume_or_continue envEmpty).2.2.2.2.2.2.2 rfl rfl rfl

/-- C6: `pause` with no argument toggles — pause when Playing, resume
when Paused, no playback action when Stopped; `pause(true)` always
pauses and `pause(false)` always resumes, each with exactly one call. -/
theorem pause_toggle_and_explicit (e : Env) :
    (e.state = .playing → pause e none = ⟨[.getState, .playbackPause], none⟩) ∧
    (e.state = .paused → pause e none = ⟨[.getState, .playbackResume], none⟩) ∧
    (e.state = .stopped → pause e none = ⟨[.getState], none⟩ ∧
      actionCalls (pause e none).calls = []) ∧
    pause e (some true) = ⟨[.playbackPause], none⟩ ∧
    pause e (some false) = ⟨[.playbackResume], none⟩ := by
  obtain ⟨st, cur, tl, tp, mv, vs⟩ := e
  cases st <;> simp [pause, actionCalls, Call.isAction]

/-- Closed witness for C6 on a concrete stopped environment. -/
theorem pause_toggle_and_explicit_witness :
    pause env3 none = ⟨[.getState], none⟩ ∧
    actionCalls (pause env3 none).calls = [] :=
  (pause_toggle_and_explicit env3).2.2.1 rfl

/-- C8: `setvol(v)` always hands `clamp(v, 0, 100)` to the mixer and
fails with a system error exactly when the mixer reports failure. -/
theorem setvol_clamps_and_reports (e : Env) (v : Int) :
    (setvol e v).calls = [Call.mixerSetVolume (min (max 0 v) 100)] ∧
    ((setvol e v).err = none ↔ e.setVolumeSuccess = true) ∧
    (setvol e v).err =
      (if e.setVolumeSuccess then none
        else some (Err.systemError "problems setting volume")) := by
  obtain ⟨st, cur, tl, tp, mv, vs⟩ := e
  cases vs <;> simp [setvol]

/-- C3: `volume(change)` rejects out-of-range changes with an argument
error before any mixer call; an unreadable current volume is a system
error; otherwise the mixer is set to `clamp(current + change, 0, 100)`
and a rejected set is a system error. -/
theorem volume_change_checks (e : Env) (change : Int) :
    ((change < -100 ∨ 100 < change) →
      volume e change = ⟨[], some (Err.argError "Invalid volume value")⟩) ∧
    (-100 ≤ change → change ≤ 100 → e.mixerVolume = none →
      volume e change =
        ⟨[Call.mixerGetVolume], some (Err.systemError "problems setting volume")⟩) ∧
    (∀ old, -100 ≤ change → change ≤ 100 → e.mixerVolume = some old →
      (volume e change).calls =
        [Call.mixerGetVolume,
          Call.mixerSetVolume (min (max 0 (old + change)) 100)] ∧
      (volume e change).err =
        (if e.setVolumeSuccess then none
          else some (Err.systemError "problems setting volume"))) := by
  obtain ⟨st, cur, tl, tp, mv, vs⟩ := e
  refine ⟨?_, ?_, ?_⟩
  · intro h
    simp only [volume]
    rw [if_pos h]
  · intro h1 h2 h3
    have hin : ¬(change < -100 ∨ 100 < change) := by omega
    subst h3
    simp only [volume]
    rw [if_neg hin]
  · intro old h1 h2 h3
    have hin : ¬(change < -100 ∨ 100 < change) := by omega
    subst h3
    simp only [volume]
    rw [if_neg hin]
    cases vs <;> simp

/-- Closed witness for C3: `volume(-200)` fails without a mixer call,
`volume(50)` at current volume 80 sets the mixer to 100, and a mixer
that rejects the set makes `volume(50)` fail with the system error. -/
theorem volume_change_checks_witness :
    volume env3 (-200) = ⟨[], some (Err.argError "Invalid volume value")⟩ ∧
    (volume env3 50).calls = [Call.mixerGetVolume, Call.mixerSetVolume 100] ∧
    (volume ⟨.stopped, none, [], 0, some 80, false⟩ 50).err =
      some (Err.systemError "problems setting volume") := by
  refine ⟨?_, ?_, ?_⟩
  · exact (volume_change_checks env3 (-200)).1 (by omega)
  · have h := ((volume_change_checks env3 50).2.2 80 (by omega) (by omega) rfl).1
    rw [h]; decide
  · have h := ((volume_change_checks ⟨.stopped, none, [], 0, some 80, false⟩
      50).2.2 80 (by omega) (by omega) rfl).2
    rw [h]; decide

/-- C9: every value handed to the mixer's set-volume call, by `setvol`
or by `volume`, lies in `[0, 100]`, whatever the inputs and whatever
current volume the mixer reports. -/
theorem mixer_set_values_in_range (e : Env) (v : Int) (x : Int) :
    (x ∈ setVolumeValues (setvol e v).calls → 0 ≤ x ∧ x ≤ 100) ∧
    (x ∈ setVolumeValues (volume e v).calls → 0 ≤ x ∧ x ≤ 100) := by
  obtain ⟨st, cur, tl, tp, mv, vs⟩ := e
  constructor
  · cases vs <;> simp [setvol, setVolumeValues] <;> omega
  · by_cases hr : v < -100 ∨ 100 < v
    · simp [volume, hr, setVolumeValues]
    · cases mv with
      | none => simp [volume, hr, setVolumeValues]
      | some old =>
        cases vs <;> simp [volume, hr, setVolumeValues] <;> omega

/-- Closed witness for C9: `setvol(150)` and `volume(50)` at volume 80
both stay within `[0, 100]`. -/
theorem mixer_set_values_in_range_witness :
    0 ≤ (100 : Int) ∧ (100 : Int) ≤ 100 :=
  (mixer_set_values_in_range env3 150 100).1 (by decide)

/-- C4: `play(p)` for an integer `p` other than `-1` looks up the track
at tracklist position `p`; out-of-range positions (all negatives other
than `-1` included) fail with an argument error and no play call, and
in-range positions start playback at that track's id. -/
theorem play_position_lookup (e : Env) (p : Int) (hp : p ≠ -1) :
    ((p < 0 ∨ (e.tracklist.length : Int) ≤ p) →
      play e (some p) =
        ⟨[Call.tracklistSlice p (p + 1)], some (Err.argError "Bad song index")⟩) ∧
    (∀ _h0 : 0 ≤ p, ∀ hlt : p.toNat < e.tracklist.length,
      play e (some p) =
        ⟨[Call.tracklistSlice p (p + 1),
          Call.playbackPlay (some ((e.tracklist.get ⟨p.toNat, hlt⟩).tlid))],
          none⟩) := by
  constructor
  · intro h
    have hnil : e.slice p (p + 1) = [] := by
      unfold Env.slice
      rcases h with h | h
      · rw [max_eq_right (by omega : p ≤ 0)]
        have h1 : (p + 1 - 0).toNat = 0 := by omega
        rw [h1, List.take_zero]
      · have h0 : 0 ≤ p := le_trans (Int.ofNat_nonneg _) h
        rw [max_eq_left h0]
        have hdrop : e.tracklist.drop p.toNat = [] :=
          List.drop_eq_nil_of_le (by omega)
        rw [hdrop, List.take_nil]
    simp [play, hp, hnil]
  · intro h0 hlt
    have hcons : e.slice p (p + 1) = [e.tracklist.get ⟨p.toNat, hlt⟩] := by
      unfold Env.slice
      rw [max_eq_left h0]
      have h1 : (p + 1 - p).toNat = 1 := by omega
      rw [h1, List.drop_eq_getElem_cons hlt]
      rfl
    simp [play, hp, hcons]

/-- Closed witness for C4: on a 3-track list, `play(5)` fails with the
argument error and `play(1)` starts the track with id 2. -/
theorem play_position_lookup_witness :
    play env3 (some 5) =
      ⟨[Call.tracklistSlice 5 6], some (Err.argError "Bad song index")⟩ ∧
    play env3 (some 1) =
      ⟨[Call.tracklistSlice 1 2, Call.playbackPlay (some 2)], none⟩ := by
  constructor
  · have h := (play_position_lookup env3 5 (by decide)).1 (by decide)
    rw [h]; decide
  · have h := (play_position_lookup env3 1 (by decide)).2 (by decide) (by decide)
    rw [h]; decide

/-- C2: when the current track's tracklist position differs from
`songpos`, `seek` performs the `play(songpos)` action first and only
then issues the within-track seek; when that track switch fails, the
seek is never issued and the single reported error is the switch's. -/
theorem seek_switches_before_seeking (e : Env) (songpos : Int) (s : ℚ)
    (hdiff : currentIndexInt e ≠ some songpos) :
    ((play e (some songpos)).err = none →
      (seek e songpos s).calls =
        [Call.getCurrentTlTrack, Call.tracklistIndex] ++
          (play e (some songpos)).calls ++
          [Call.playbackSeek (pyInt (s * 1000))] ∧
      (seek e songpos s).err = none) ∧
    (∀ er, (play e (some songpos)).err = some er →
      (seek e songpos s).err = some er ∧
      (seek e songpos s).calls =
        [Call.getCurrentTlTrack, Call.tracklistIndex] ++
          (play e (some songpos)).calls ∧
      seekValues (seek e songpos s).calls = []) := by
  constructor
  · intro h
    constructor <;> simp [seek, hdiff, h]
  · intro er h
    have hcalls : (seek e songpos s).calls =
        [Call.getCurrentTlTrack, Call.tracklistIndex] ++
          (play e (some songpos)).calls := by
      simp [seek, hdiff, h]
    refine ⟨by simp [seek, hdiff, h], hcalls, ?_⟩
    rw [hcalls, seekValues_append, seekValues_play]
    rfl

/-- Closed witness for C2: seeking to the out-of-range position 5 while
track id 2 (position 1) is current reports the argument error and issues
no seek call. -/
theorem seek_switches_before_seeking_witness :
    (seek env3 5 (3 : ℚ)).err = some (Err.argError "Bad song index") ∧
    seekValues (seek env3 5 (3 : ℚ)).calls = [] := by
  have h := (seek_switches_before_seeking env3 5 3 (by decide)).2
    (Err.argError "Bad song index") (by decide)
  exact ⟨h.1, h.2.2⟩

/-- C10: `seekid` with no current track always runs the `playid` action
before the within-track seek, so an id absent from the tracklist makes
the command fail with the not-found error and no seek call. -/
theorem seekid_switch_when_no_current (e : Env) (tlid : Int) (s : ℚ)
    (hcur : e.current = none) (hnn : 0 ≤ tlid) :
    (seekid e tlid s).calls =
      Call.getCurrentTlTrack :: ((playid e tlid).calls ++
        (if (playid e tlid).err = none
          then [Call.playbackSeek (pyInt (s * 1000))] else [])) ∧
    (e.filterTlid tlid = [] →
      seekid e tlid s =
        ⟨[Call.getCurrentTlTrack, Call.tracklistFilterTlid tlid],
          some (Err.noExistError "No such song")⟩) := by
  have hne : tlid ≠ -1 := by omega
  constructor
  · cases h : (playid e tlid).err <;> simp [seekid, seekidSwitch, hcur, h]
  · intro hf
    have hpl : playid e tlid =
        ⟨[Call.tracklistFilterTlid tlid],
          some (Err.noExistError "No such song")⟩ := by
      simp [playid, hne, hf]
    simp [seekid, seekidSwitch, hcur, hpl]

/-- Closed witness for C10: `seekid(7, 2)` on an empty tracklist with no
current track fails with the not-found error and no seek call. -/
theorem seekid_switch_when_no_current_witness :
    seekid envEmpty 7 (2 : ℚ) =
      ⟨[Call.getCurrentTlTrack, Call.tracklistFilterTlid 7],
        some (Err.noExistError "No such song")⟩ :=
  (seekid_switch_when_no_current envEmpty 7 2 rfl (by decide)).2 rfl

/-- C7: `seekcur` with a signed time adds the signed offset to the
current time position (negative results passed through); with an
unsigned time it seeks to the absolute value independent of the current
position; in both cases it never issues a play call. -/
theorem seekcur_relative_and_absolute (e : Env) (t : TimeArg) :
    (t.relative = true →
      seekcur e t = ⟨[Call.getTimePosition,
        Call.playbackSeek (e.timePosition + pyInt (t.value * 1000))], none⟩) ∧
    (t.relative = false →
      seekcur e t = ⟨[Call.playbackSeek (pyInt (t.value * 1000))], none⟩) ∧
    (∀ tl, Call.playbackPlay tl ∉ (seekcur e t).calls) := by
  obtain ⟨r, v⟩ := t
  cases r <;> simp [seekcur]

/-- Closed witness for C7: from time position 10000 ms, `+5` seeks to
15000 ms, `-5` seeks to 5000 ms, and the absolute `20` seeks to
20000 ms. -/
theorem seekcur_relative_and_absolute_witness :
    seekcur env3 ⟨true, 5⟩ =
      ⟨[Call.getTimePosition, Call.playbackSeek 15000], none⟩ ∧
    seekcur env3 ⟨true, -5⟩ =
      ⟨[Call.getTimePosition, Call.playbackSeek 5000], none⟩ ∧
    seekcur env3 ⟨false, 20⟩ = ⟨[Call.playbackSeek 20000], none⟩ := by
  refine ⟨?_, ?_, ?_⟩
  · exact ((seekcur_relative_and_absolute env3 ⟨true, 5⟩).1 rfl).trans
      (by simp only [env3]; norm_num [pyInt])
  · exact ((seekcur_relative_and_absolute env3 ⟨true, -5⟩).1 rfl).trans
      (by simp only [env3]; norm_num [pyInt, Int.ceil_neg])
  · exact ((seekcur_relative_and_absolute env3 ⟨false, 20⟩).2.1 rfl).trans
      (by norm_num [pyInt])

/-- C5 counterexample: seeking to 0.0016 s issues 1 ms (Python `int()`
truncation), while rounding 0.0016 s * 1000 to the nearest integer gives
2 ms, so the issued position is not `round(seconds * 1000)`. -/
theorem seek_ms_rounding_counterexample :
    seekValues (seek envSeek 0 (2 / 1250 : ℚ)).calls = [1] ∧
    round ((2 / 1250 : ℚ) * 1000) = 2 ∧
    seekValues (seek envSeek 0 (2 / 1250 : ℚ)).calls ≠
      [round ((2 / 1250 : ℚ) * 1000)] := by
  have hpos : currentIndexInt envSeek = some 0 := by decide
  have h1 : seekValues (seek envSeek 0 (2 / 1250 : ℚ)).calls
      = [pyInt ((2 / 1250 : ℚ) * 1000)] := by
    unfold seek
    rw [if_pos hpos]
    rfl
  have h2 : pyInt ((2 / 1250 : ℚ) * 1000) = 1 := by norm_num [pyInt]
  have h3 : round ((2 / 1250 : ℚ) * 1000) = 2 := by norm_num [round_eq]
  refine ⟨h1.trans (by rw [h2]), h3, ?_⟩
  rw [h1, h2, h3]
  decide

/-- C5 (amended): for `seek`, `seekid` and both forms of `seekcur`, the
issued millisecond value uses `int(seconds * 1000)` — truncation toward
zero (the floor, for the non-negative `seek`/`seekid` argument) — not
rounding to the nearest integer; the relative `seekcur` adds that
truncated offset to the current position. -/
theorem seek_ms_truncation (e : Env) (songpos tlid : Int) (s : ℚ)
    (t : TimeArg) :
    ((seek e songpos s).err = none →
      seekValues (seek e songpos s).calls = [pyInt (s * 1000)]) ∧
    ((seekid e tlid s).err = none →
      seekValues (seekid e tlid s).calls = [pyInt (s * 1000)]) ∧
    (t.relative = false →
      seekValues (seekcur e t).calls = [pyInt (t.value * 1000)]) ∧
    (t.relative = true →
      seekValues (seekcur e t).calls =
        [e.timePosition + pyInt (t.value * 1000)]) := by
  refine ⟨?_, ?_, ?_, ?_⟩
  · intro h
    by_cases hidx : currentIndexInt e = some songpos
    · simp [seek, hidx, seekValues]
    · cases hp : (play e (some songpos)).err with
      | some er => exact absurd h (by simp [seek, hidx, hp])
      | none =>
        have hcalls : (seek e songpos s).calls =
            [Call.getCurrentTlTrack, Call.tracklistIndex] ++
              ((play e (some songpos)).calls ++
                [Call.playbackSeek (pyInt (s * 1000))]) := by
          simp [seek, hidx, hp]
        rw [hcalls, seekValues_append, seekValues_append, seekValues_play]
        rfl
  · intro h
    cases hcond : seekidSwitch e tlid with
    | false => simp [seekid, hcond, seekValues]
    | true =>
      cases hp : (playid e tlid).err with
      | some er => exact absurd h (by simp [seekid, hcond, hp])
      | none =>
        have hcalls : (seekid e tlid s).calls =
            [Call.getCurrentTlTrack] ++ ((playid e tlid).calls ++
              [Call.playbackSeek (pyInt (s * 1000))]) := by
          simp [seekid, hcond, hp]
        rw [hcalls, seekValues_append, seekValues_append, seekValues_playid]
        rfl
  · intro hr
    simp [seekcur, hr, seekValues]
  · intro hr
    simp [seekcur, hr, seekValues]

/-- Closed witness for C5 (amended): seeking to 0.0016 s issues exactly
the truncated value `int(1.6) = 1`. -/
theorem seek_ms_truncation_witness :
    seekValues (seek envSeek 0 (2 / 1250 : ℚ)).calls =
      [pyInt ((2 / 1250 : ℚ) * 1000)] ∧
    pyInt ((2 / 1250 : ℚ) * 1000) = 1 :=
  ⟨(seek_ms_truncation envSeek 0 0 (2 / 1250) ⟨false, 0⟩).1
      (by unfold seek
          rw [if_pos (by decide : currentIndexInt envSeek = some 0)]),
    by norm_num [pyInt]⟩
